import Mathlib

/-
  Verification of the VibeSurf orchestration engine
  (src/vibe_surf/agents/vibe_surf_agent.py) against its
  natural-language specification.

  The Python module is shallowly embedded: the session state dataclass
  becomes a Lean structure, each workflow function becomes a pure Lean
  function over that structure, and the asynchronous environment
  (controller mutations during sleeps, worker creation and run outcomes,
  browser-session registration outcomes) is passed in explicitly.
  Exceptions are modelled with Except; asyncio.gather both preserves
  argument order and, with return_exceptions=True, returns exceptions
  in place, which the embedding reflects directly.
-/

set_option maxHeartbeats 1000000

namespace VibeSurf

/-- Activity log entry appended by log_agent_activity
(vibe_surf_agent.py lines 129-137): agent name, status tag, message. -/
structure ActivityEntry where
  agent_name : String
  agent_status : String
  agent_msg : String
deriving DecidableEq, Repr

/-- Browser task descriptor as accepted by the dispatch functions.
The Python code duck-types each entry of state.browser_tasks as either a
two-element list [target_id, description], a dict with optional
'description' and 'tab_id' keys, or a plain string (lines 519-526,
533-541, 634-646). -/
inductive TaskSpec where
  | pair (target_id : String) (description : String)
  | dict (description : Option String) (tab_id : Option String)
  | str (s : String)
deriving DecidableEq, Repr

/-- Description extracted from a descriptor, mirroring
task.get('description', 'Unknown task') for dicts and str(task)
for strings (lines 521-526). -/
def TaskSpec.description : TaskSpec → String
  | .pair _ d => d
  | .dict d _ => d.getD "Unknown task"
  | .str s => s

/-- Explicit target resource of a descriptor (lines 520-526): the first
element of a pair, the 'tab_id' of a dict, none for a plain string. -/
def TaskSpec.targetId : TaskSpec → Option String
  | .pair t _ => some t
  | .dict _ t => t
  | .str _ => none

/-- isinstance(task, list) test used by the cleanup loop (line 621). -/
def TaskSpec.isPair : TaskSpec → Bool
  | .pair _ _ => true
  | _ => false

/-- isinstance(task, str) test: a plain-string descriptor. -/
def TaskSpec.isStr : TaskSpec → Bool
  | .str _ => true
  | _ => false

/-- Python str() rendering of a descriptor, used by the error paths that
stringify a non-dict task (lines 428, 525). -/
def TaskSpec.pyText : TaskSpec → String
  | .pair t d => "['" ++ t ++ "', '" ++ d ++ "']"
  | .dict d t => "\x7b'description': " ++ toString (repr d) ++ ", 'tab_id': " ++ toString (repr t) ++ "\x7d"
  | .str s => s

/-- Description used for the error results built by
_browser_task_execution_node_impl (lines 422-429): dicts yield their
'description' (default 'Unknown task'), anything else is stringified. -/
def TaskSpec.errorDescription : TaskSpec → String
  | .dict d _ => d.getD "Unknown task"
  | t => t.pyText

/-- BrowserTaskResult (lines 43-51). The pydantic field task has type
str; construction with a non-string raises a ValidationError, which the
embedding models via pyStr below. -/
structure BrowserTaskResult where
  agent_id : String
  task : String
  success : Bool
  result : Option String
  error : Option String
deriving DecidableEq, Repr

/-- Pydantic validation of the BrowserTaskResult.task field: the Python
code passes the raw descriptor (task=pending_tasks[i], lines 591, 601,
684, 711); pydantic v2 accepts a str and rejects a dict or list input
with a ValidationError. -/
def pyStr : TaskSpec → Except String String
  | .str s => .ok s
  | _ => .error "ValidationError: 1 validation error for BrowserTaskResult - task: Input should be a valid string"

/-- VibeSurfState (lines 81-113) together with the extra attributes the
workflow reads from it at runtime (activity_logs at line 136, task_id at
line 518). Fields not touched by any claim (message_history, llm,
browser_manager, tools, file_system, task_dir) are omitted. -/
structure VibeSurfState where
  original_task : String
  upload_files : List String
  session_id : String
  current_step : String
  is_complete : Bool
  current_action : Option String
  browser_tasks : List TaskSpec
  browser_results : List BrowserTaskResult
  generated_report_path : Option String
  final_response : Option String
  paused : Bool
  stopped : Bool
  should_pause : Bool
  should_stop : Bool
  activity_logs : List ActivityEntry
  task_id : String
deriving DecidableEq, Repr

/-- Append one entry to the activity log, as log_agent_activity does
(lines 129-137). -/
def log_agent_activity (s : VibeSurfState) (name status msg : String) : VibeSurfState :=
  { s with activity_logs := s.activity_logs ++ [⟨name, status, msg⟩] }

/- ------------------------------------------------------------------
   Control-aware node wrapper (the gate), lines 192-236.
   ------------------------------------------------------------------ -/

/-- Outcome of one pass through control_aware_node. -/
inductive GateOutcome where
  | skippedAlreadyStopped
  | stoppedWhilePaused
  | stoppedBeforeRun
  | ranNode
deriving DecidableEq, Repr

/-- The should_pause to paused transition performed at the top of each
pause-wait iteration (lines 203-206): when not yet paused but a pause was
requested, set paused and clear the request. -/
def pauseMark (s : VibeSurfState) : VibeSurfState :=
  if !s.paused && s.should_pause then
    { s with paused := true, should_pause := false }
  else s

/-- The transition performed when a stop request is observed (lines
215-216 and 222-224): set stopped and clear should_stop. -/
def stopMark (s : VibeSurfState) : VibeSurfState :=
  { s with stopped := true, should_stop := false }

/-- The pause-wait loop of control_aware_node (lines 202-218) followed by
the post-loop stop check (lines 221-226). Each element of env is the
aggregate mutation the external controller applies to the shared state
during one asyncio.sleep(0.5); none is returned when env is exhausted
while the loop is still waiting (the wait outlives the modelled window). -/
def pauseWait : List (VibeSurfState → VibeSurfState) → VibeSurfState →
    Option (VibeSurfState × GateOutcome)
  | [], s =>
    if s.paused || s.should_pause then none
    else if s.should_stop then some (stopMark s, .stoppedBeforeRun)
    else some (s, .ranNode)
  | μ :: rest, s =>
    if s.paused || s.should_pause then
      let s2 := μ (pauseMark s)
      if s2.stopped || s2.should_stop then
        some (stopMark s2, .stoppedWhilePaused)
      else
        pauseWait rest s2
    else if s.should_stop then some (stopMark s, .stoppedBeforeRun)
    else some (s, .ranNode)

/-- control_aware_node (lines 192-236) up to the point where the wrapped
node function would run: if already stopped the node is skipped (lines
197-199); otherwise the pause-wait loop runs; a ranNode outcome means
execution reaches node_func(state) at line 233. -/
def gateRun (env : List (VibeSurfState → VibeSurfState)) (s : VibeSurfState) :
    Option (VibeSurfState × GateOutcome) :=
  if s.stopped then some (s, .skippedAlreadyStopped)
  else pauseWait env s

/- ------------------------------------------------------------------
   Control operations on session state (VibeSurfAgent.stop / pause /
   resume), lines 908-1048: their effect on the shared _current_state.
   ------------------------------------------------------------------ -/

/-- Flag effect of VibeSurfAgent.stop on _current_state (lines 926-928):
sets should_stop and stopped. -/
def agentStop (s : VibeSurfState) : VibeSurfState :=
  { s with should_stop := true, stopped := true }

/-- Flag effect of VibeSurfAgent.pause on _current_state (lines 986-987):
sets should_pause. -/
def agentPause (s : VibeSurfState) : VibeSurfState :=
  { s with should_pause := true }

/-- Flag effect of VibeSurfAgent.resume on _current_state (lines
1026-1028): clears paused and should_pause. -/
def agentResume (s : VibeSurfState) : VibeSurfState :=
  { s with paused := false, should_pause := false }

/- ------------------------------------------------------------------
   Worker dispatcher, lines 493-716.
   ------------------------------------------------------------------ -/

/-- Outcome of one worker's agent.run() call: either the coroutine
raised an exception, or it finished with a history whose
is_successful(), final_result(), errors() and has_errors() values are
recorded. -/
inductive RunOutcome where
  | raised (msg : String)
  | finished (ok : Bool) (finalRes : String) (errsText : String) (hasErrs : Bool)
deriving DecidableEq, Repr

/-- Agent id generated for the i-th parallel task (line 518):
agent-{i+1}-{task_id[-4:]}, with suffix standing for the last four
characters of the task id. -/
def parallelAgentId (suffix : String) (i : Nat) : String :=
  "agent-" ++ toString (i + 1) ++ "-" ++ suffix

/-- The message of the first failing browser-session registration, if
any: asyncio.gather(*register_sessions) at line 531 raises the exception
of a failing register_agent call. reg i = some msg means registration of
the i-th task's session raises msg. -/
def firstRegFailure (n : Nat) (reg : Nat → Option String) : Option String :=
  ((List.range n).filterMap reg).head?

/-- The original task indices whose BrowserUseAgent construction
succeeded, in order: the creation loop (lines 533-578) catches a
per-task creation failure and simply does not append to agents. -/
def createdAgents (n : Nat) (create : Nat → Option String) : List Nat :=
  (List.range n).filter (fun i => (create i).isNone)

/-- One entry of the result-processing loop of
execute_parallel_browser_tasks (lines 586-614). j is the position in the
zip over (agents, histories); agents lists the original task indices
whose creation succeeded, and the loop — bug-compatibly — labels the
entry with pending_tasks[j], not pending_tasks[agents[j]]. The
BrowserTaskResult construction validates the task field via pyStr. -/
def mkParallelResult (ts : List TaskSpec) (agents : List Nat)
    (run : Nat → RunOutcome) (j : Nat) : Except String BrowserTaskResult :=
  match pyStr (ts.getD j (.str "")) with
  | .error e => .error e
  | .ok t =>
    match run (agents.getD j 0) with
    | .raised msg => .ok ⟨"agent-" ++ toString (j + 1), t, false, none, some msg⟩
    | .finished ok finalRes errsText hasErrs =>
      .ok ⟨"agent-" ++ toString (j + 1), t, ok, some finalRes,
           some (if hasErrs && !ok then errsText else "")⟩

/-- A loop appending result entries one by one; an exception raised
while building an entry discards the list and propagates. -/
def resultsLoop (f : Nat → Except String BrowserTaskResult) :
    List Nat → Except String (List BrowserTaskResult)
  | [] => .ok []
  | j :: rest =>
    match f j with
    | .error e => .error e
    | .ok r =>
      match resultsLoop f rest with
      | .error e => .error e
      | .ok rs => .ok (r :: rs)

/-- The whole result-processing loop (lines 585-614): asyncio.gather with
return_exceptions=True returns the per-agent outcomes in argument order,
so the loop runs over positions 0..len(agents)-1; a ValidationError
raised while constructing a result propagates. -/
def processParallelResults (ts : List TaskSpec) (agents : List Nat)
    (run : Nat → RunOutcome) : Except String (List BrowserTaskResult) :=
  resultsLoop (mkParallelResult ts agents run) (List.range agents.length)

/-- Bookkeeping produced by one call of execute_parallel_browser_tasks:
the returned results (or the propagated exception), the task indices
whose isolated browser session was acquired by register_agent, the task
indices whose session the finally block released via
unregister_agent(close_tabs=True), the agent ids added to
_running_agents, and the agent ids the finally block popped from it. -/
structure ParallelOutcome where
  resultsE : Except String (List BrowserTaskResult)
  acquired : List Nat
  released : List Nat
  registryAdds : List String
  registryRemoved : List String
deriving Repr

/-- execute_parallel_browser_tasks (lines 508-625).

Environment: reg i = some msg when register_agent for task i raises msg
(line 528); create i = some msg when constructing the BrowserUseAgent
for task i raises msg (lines 558-567, caught per task at 575-578);
run i is the run() outcome of the agent created for task i.

Control flow mirrored from the source: the registration gather (line
531) sits outside the try/finally, so a registration failure propagates
with no cleanup, while sessions whose registration succeeded were still
acquired by their background tasks; the creation loop catches per-task
failures and simply skips the agent, so agents holds the original task
indices with successful creation, in order; the try block gathers and
processes results; the finally block (lines 618-625) iterates all task
ids, unregisters the session of every non-pair task and pops every id
from _running_agents. -/
def execute_parallel_browser_tasks (suffix : String) (ts : List TaskSpec)
    (reg : Nat → Option String) (create : Nat → Option String)
    (run : Nat → RunOutcome) : ParallelOutcome :=
  let n := ts.length
  match firstRegFailure n reg with
  | some msg =>
    { resultsE := .error msg
      acquired := (List.range n).filter (fun i => (reg i).isNone)
      released := []
      registryAdds := []
      registryRemoved := [] }
  | none =>
    let agents := createdAgents n create
    { resultsE := processParallelResults ts agents run
      acquired := List.range n
      released := (List.range n).filter (fun i => !(ts.getD i (.str "")).isPair)
      registryAdds := agents.map (parallelAgentId suffix)
      registryRemoved := (List.range n).map (parallelAgentId suffix) }

/-- Environment of one task of the single (sequential) path: whether
constructing its BrowserUseAgent raises, and its run() outcome. -/
structure SingleEnv where
  createErr : Option String
  run : RunOutcome

/-- Binding of a worker to a browser session: the single path binds
every agent to browser_manager.main_browser_session (line 666), the
parallel path to a per-task registered session (line 561). -/
inductive SessionBinding where
  | shared
  | isolated (taskIndex : Nat)
deriving DecidableEq, Repr

/-- One iteration of the loop of execute_single_browser_tasks (lines
633-714). A creation failure is caught by the per-task except (line 705)
and recorded as a failed result; a run() exception is likewise caught
(after the inner finally pops the agent) and recorded; on a normal run
the result is built at lines 682-688. Every BrowserTaskResult here is
built with task=task raw, so pyStr validation applies; a ValidationError
in the success path is caught by the per-task except, whose own error
result construction fails the same validation and propagates out of the
loop. -/
def singleTaskResult (suffix : String) (i : Nat) (t : TaskSpec) (e : SingleEnv) :
    Except String BrowserTaskResult :=
  let aid := "agent-single-" ++ suffix ++ "-" ++ toString i
  match e.createErr with
  | some msg => do
    let ts' ← pyStr t
    .ok ⟨aid, ts', false, none, some msg⟩
  | none =>
    match e.run with
    | .raised msg => do
      let ts' ← pyStr t
      .ok ⟨aid, ts', false, none, some msg⟩
    | .finished ok finalRes errsText hasErrs => do
      let ts' ← pyStr t
      .ok ⟨aid, ts', ok, some finalRes,
           some (if hasErrs && !ok then errsText else "")⟩

/-- The accumulation loop of execute_single_browser_tasks: results are
appended task by task; an exception escaping a per-task handler discards
the collected list and propagates. -/
def singleLoop (suffix : String) (senv : Nat → SingleEnv) :
    Nat → List TaskSpec → Except String (List BrowserTaskResult)
  | _, [] => .ok []
  | i, t :: rest => do
    let r ← singleTaskResult suffix i t (senv i)
    let rs ← singleLoop suffix senv (i + 1) rest
    .ok (r :: rs)

/-- Sessions bound by the single path: one shared main-session binding
per task whose agent construction succeeds (line 666). -/
def singleSessions (senv : Nat → SingleEnv) (ts : List TaskSpec) : List SessionBinding :=
  (List.range ts.length).filterMap
    (fun i => if (senv i).createErr.isNone then some SessionBinding.shared else none)

/-- Results and session bindings of one call of
execute_single_browser_tasks. -/
structure SingleOutcome where
  resultsE : Except String (List BrowserTaskResult)
  sessionsUsed : List SessionBinding

/-- execute_single_browser_tasks (lines 628-716). -/
def execute_single_browser_tasks (suffix : String) (ts : List TaskSpec)
    (senv : Nat → SingleEnv) : SingleOutcome :=
  { resultsE := singleLoop suffix senv 0 ts
    sessionsUsed := singleSessions senv ts }

/-- The execution strategy chosen by execute_tab_based_browser_tasks. -/
inductive DispatchPath where
  | single
  | parallel
deriving DecidableEq, Repr

/-- Strategy selection of execute_tab_based_browser_tasks (lines
493-505): the single path when len(browser_tasks) <= 1, the parallel
path otherwise — the list length is the only input considered. -/
def dispatchPath (ts : List TaskSpec) : DispatchPath :=
  if ts.length ≤ 1 then .single else .parallel

/-- execute_tab_based_browser_tasks (lines 493-505): dispatch to the
single or the parallel execution function according to dispatchPath. -/
def execute_tab_based_browser_tasks (suffix : String) (ts : List TaskSpec)
    (senv : Nat → SingleEnv) (reg : Nat → Option String)
    (create : Nat → Option String) (run : Nat → RunOutcome) :
    Except String (List BrowserTaskResult) :=
  if ts.length ≤ 1 then (execute_single_browser_tasks suffix ts senv).resultsE
  else (execute_parallel_browser_tasks suffix ts reg create run).resultsE

/- ------------------------------------------------------------------
   Workflow nodes and routing, lines 255-491 and 719-793.
   ------------------------------------------------------------------ -/

/-- Outcome of the body of the try block of _vibesurf_agent_node_impl
(lines 289-374): the planner (llm.ainvoke) returns actions that either
route to browser task execution, route to report generation, finish via
task_done, or — for any other action name — execute inline through
state.tools.act; raised covers any exception escaping the try body,
whether from the planner invocation itself or from inline action
execution. -/
inductive PlannerStep where
  | raised (msg : String)
  | routeBrowserTasks (tasks : List TaskSpec)
  | routeReport
  | taskDone (response : String) (followTasks : List String)
  | inlineAction (extracted : Option String) (errText : Option String)
deriving Repr

/-- Numbered follow-up list appended by the task_done branch (lines
337-340): at most three suggestions, numbered from 1. -/
def numberedFollowUps (items : List String) : String :=
  String.join (items.enum.map (fun p => toString (p.1 + 1) ++ ". " ++ p.2 ++ "\n"))

/-- _vibesurf_agent_node_impl (lines 255-381), given the outcome of its
try body. The except branch (lines 376-381) sets the final response to
the error text, marks the session complete, and appends an error entry
to the activity log. -/
def vibesurf_agent_node_impl (s : VibeSurfState) (step : PlannerStep) : VibeSurfState :=
  match step with
  | .raised msg =>
    let s := { s with final_response := some ("Task execution failed: " ++ msg),
                      is_complete := true }
    log_agent_activity s "vibesurf_agent" "error" ("Agent failed: " ++ msg)
  | .routeBrowserTasks tasks =>
    let s := { s with browser_tasks := tasks,
                      current_action := some "execute_browser_use_agent_tasks",
                      current_step := "browser_task_execution" }
    log_agent_activity s "vibesurf_agent" "result"
      ("Routing to browser task execution with " ++ toString tasks.length ++ " tasks")
  | .routeReport =>
    let s := { s with current_action := some "execute_report_writer_agent",
                      current_step := "report_task_execution" }
    log_agent_activity s "vibesurf_agent" "result" "Routing to report generation"
  | .taskDone response followTasks =>
    let finalResponse :=
      if followTasks.isEmpty then response
      else response ++ "\n\n## Suggested Follow-up Tasks:\n" ++
           numberedFollowUps (followTasks.take 3)
    let s := { s with final_response := some finalResponse, is_complete := true }
    log_agent_activity s "vibesurf_agent" "result" finalResponse
  | .inlineAction extracted errText =>
    let s := match extracted with
      | some c => log_agent_activity s "vibesurf_agent" "result" c
      | none => s
    match errText with
      | some e => log_agent_activity s "vibesurf_agent" "error" e
      | none => s

/-- Result handling of _browser_task_execution_node_impl (lines
399-442): extend browser_results with the returned list and route back
to the vibesurf agent; if the dispatcher raised, build one failed result
per task (agent_id 'error', the exception text as error) and still route
back. -/
def afterDispatch (s : VibeSurfState)
    (res : Except String (List BrowserTaskResult)) : VibeSurfState :=
  match res with
  | .ok results =>
    let s := { s with browser_results := s.browser_results ++ results,
                      current_step := "vibesurf_agent" }
    let successful := (results.filter (·.success)).length
    log_agent_activity s "browser_task_executor" "result"
      ("Browser execution completed: " ++ toString successful ++ "/" ++
       toString results.length ++ " tasks successful")
  | .error e =>
    let errorResults := s.browser_tasks.map
      (fun t => BrowserTaskResult.mk "error" t.errorDescription false none (some e))
    let s := { s with browser_results := s.browser_results ++ errorResults,
                      current_step := "vibesurf_agent" }
    log_agent_activity s "browser_task_executor" "error"
      ("Browser execution failed: " ++ e)

/-- _browser_task_execution_node_impl (lines 391-442): log the working
entry, dispatch the stored browser tasks, and handle the outcome. -/
def browser_task_execution_node_impl (suffix : String) (s : VibeSurfState)
    (senv : Nat → SingleEnv) (reg : Nat → Option String)
    (create : Nat → Option String) (run : Nat → RunOutcome) : VibeSurfState :=
  afterDispatch
    (log_agent_activity s "browser_task_executor" "working"
      ("Executing " ++ toString s.browser_tasks.length ++ " browser tasks"))
    (execute_tab_based_browser_tasks suffix s.browser_tasks senv reg create run)

/-- route_after_vibesurf_agent (lines 719-730), verbatim: the
current_step checks come before the is_complete check. -/
def route_after_vibesurf_agent (s : VibeSurfState) : String :=
  if s.current_step == "browser_task_execution" then "browser_task_execution"
  else if s.current_step == "report_task_execution" then "report_task_execution"
  else if s.current_step == "vibesurf_agent" then "vibesurf_agent"
  else if s.is_complete then "END"
  else "END"

/-- should_continue (lines 743-748). Note: create_vibe_surf_workflow
(lines 751-793) never wires this function into the graph; the only
conditional edge out of the vibesurf_agent node uses
route_after_vibesurf_agent. -/
def should_continue (s : VibeSurfState) : String :=
  if s.is_complete then "END" else "continue"

/- ------------------------------------------------------------------
   Targeted control operations, lines 1050-1128.
   ------------------------------------------------------------------ -/

/-- ControlResult (lines 54-59), restricted to the fields the claims
talk about. -/
structure ControlResult where
  success : Bool
  message : String
deriving DecidableEq, Repr

/-- Handle of a registered running agent as the control operations see
it: whether it exposes pause()/resume() hooks and whether awaiting the
hook raises. -/
structure AgentHandle where
  hasPause : Bool
  pauseErr : Option String
  hasResume : Bool
  resumeErr : Option String
deriving Repr

/-- VibeSurfAgent.pause_agent (lines 1050-1088): look the id up in
_running_agents; a missing id only logs a warning and still returns a
success result; a present agent with a pause hook is paused, and an
exception from the hook is caught and converted into a failure result. -/
def pause_agent (registry : List (String × AgentHandle)) (agent_id reason : String) :
    ControlResult :=
  match registry.lookup agent_id with
  | some a =>
    if a.hasPause then
      match a.pauseErr with
      | some e =>
        ⟨false, "Failed to pause agent " ++ agent_id ++ ": " ++ e⟩
      | none =>
        ⟨true, "Agent " ++ agent_id ++ " paused successfully: " ++ reason⟩
    else ⟨true, "Agent " ++ agent_id ++ " paused successfully: " ++ reason⟩
  | none => ⟨true, "Agent " ++ agent_id ++ " paused successfully: " ++ reason⟩

/-- VibeSurfAgent.resume_agent (lines 1090-1128), symmetric to
pause_agent. -/
def resume_agent (registry : List (String × AgentHandle)) (agent_id reason : String) :
    ControlResult :=
  match registry.lookup agent_id with
  | some a =>
    if a.hasResume then
      match a.resumeErr with
      | some e =>
        ⟨false, "Failed to resume agent " ++ agent_id ++ ": " ++ e⟩
      | none =>
        ⟨true, "Agent " ++ agent_id ++ " resumed successfully: " ++ reason⟩
    else ⟨true, "Agent " ++ agent_id ++ " resumed successfully: " ++ reason⟩
  | none => ⟨true, "Agent " ++ agent_id ++ " resumed successfully: " ++ reason⟩

/- ------------------------------------------------------------------
   Status reporter, lines 62-78 and 1130-1207.
   ------------------------------------------------------------------ -/

/-- The values admitted by the Literal annotation of
VibeSurfStatus.overall_status (line 74). -/
def overallStatusLiterals : List String :=
  ["running", "paused", "stopped", "idle", "error"]

/-- The overall-status string computed by the branch chain of get_status
(lines 1138-1148). Note the complete branch produces the string
"completed". -/
def rawOverallStatus : Option VibeSurfState → String
  | none => "idle"
  | some s =>
    if s.stopped then "stopped"
    else if s.paused || s.should_pause then "paused"
    else if s.is_complete then "completed"
    else "running"

/-- Per-agent status computed for each entry of _running_agents (lines
1154-1164): running unless the session is stopped or paused. -/
def agentStatusValue : Option VibeSurfState → String
  | some s => if s.stopped then "stopped" else if s.paused then "paused" else "running"
  | none => "running"

/-- The VibeSurfStatus snapshot, restricted to the claim-relevant
fields; progressError models the progress={"error": str(e)} payload of
the failure branch. -/
structure VibeSurfStatusM where
  overall_status : String
  agent_statuses : List (String × String)
  progressError : Option String
  active_step : Option String
deriving DecidableEq, Repr

/-- Pydantic construction of VibeSurfStatus (lines 1194-1199): building
the model validates overall_status against its Literal annotation and
raises a ValidationError on any other value. -/
def mkVibeSurfStatus (raw : String) (ags : List (String × String))
    (astep : Option String) : Except String VibeSurfStatusM :=
  if overallStatusLiterals.contains raw then .ok ⟨raw, ags, none, astep⟩
  else .error ("ValidationError: overall_status input should be one of the allowed literals, got " ++ raw)

/-- VibeSurfAgent.get_status (lines 1130-1207): compute the overall
status and the per-agent statuses, construct the VibeSurfStatus model,
and catch any exception, returning an error status carrying the failure
text (lines 1201-1207). -/
def get_status (cur : Option VibeSurfState) (running_agents : List String) :
    VibeSurfStatusM :=
  let raw := rawOverallStatus cur
  let ags := running_agents.map (fun aid => (aid, agentStatusValue cur))
  match mkVibeSurfStatus raw ags (cur.map (·.current_step)) with
  | .ok st => st
  | .error e => ⟨"error", [], some e, none⟩

/- ------------------------------------------------------------------
   Concrete states used to evaluate the embedding.
   ------------------------------------------------------------------ -/

/-- A session state with the given control flags and completion flag,
at the planning step, with empty task and result lists. -/
def mkFlagsState (p st sp ss comp : Bool) : VibeSurfState :=
  { original_task := "open example.com"
    upload_files := []
    session_id := "session-1"
    current_step := "vibesurf_agent"
    is_complete := comp
    current_action := none
    browser_tasks := []
    browser_results := []
    generated_report_path := none
    final_response := none
    paused := p
    stopped := st
    should_pause := sp
    should_stop := ss
    activity_logs := []
    task_id := "task-0001" }

/-- A running state: no flag set, not complete. -/
def runningStateEx : VibeSurfState := mkFlagsState false false false false false

/-- A paused state: paused set, nothing else. -/
def pausedStateEx : VibeSurfState := mkFlagsState true false false false false

/-- A stopped state. -/
def stoppedStateEx : VibeSurfState := mkFlagsState false true false false false

/-- A completed state: is_complete set, no control flag set. -/
def completeStateEx : VibeSurfState := mkFlagsState false false false false true

/- ------------------------------------------------------------------
   Helper lemmas shared by the claim proofs.
   ------------------------------------------------------------------ -/

/-- When every registration succeeds, no registration failure is
observed by the gather. -/
theorem firstRegFailure_eq_none (n : Nat) (reg : Nat → Option String)
    (h : ∀ i, i < n → reg i = none) : firstRegFailure n reg = none := by
  unfold firstRegFailure
  rw [List.filterMap_eq_nil_iff.mpr fun a ha => h a (List.mem_range.mp ha)]
  rfl

/-- When every creation succeeds, the agents list is exactly the task
index range. -/
theorem createdAgents_all_ok (n : Nat) (create : Nat → Option String)
    (h : ∀ i, i < n → create i = none) : createdAgents n create = List.range n := by
  unfold createdAgents
  rw [List.filter_eq_self]
  intro a ha
  simp [h a (List.mem_range.mp ha)]

/-- Under an all-successful registration phase, the parallel dispatcher
reaches the try/finally: its results come from the processing loop over
the created agents and its bookkeeping lists take their normal values. -/
theorem parallel_reg_ok (suffix : String) (ts : List TaskSpec)
    (reg create : Nat → Option String) (run : Nat → RunOutcome)
    (hreg : ∀ i, i < ts.length → reg i = none) :
    execute_parallel_browser_tasks suffix ts reg create run =
      { resultsE := processParallelResults ts (createdAgents ts.length create) run
        acquired := List.range ts.length
        released := (List.range ts.length).filter
          (fun i => !(ts.getD i (.str "")).isPair)
        registryAdds := (createdAgents ts.length create).map (parallelAgentId suffix)
        registryRemoved := (List.range ts.length).map (parallelAgentId suffix) } := by
  simp only [execute_parallel_browser_tasks, firstRegFailure_eq_none _ _ hreg]

/-- The results loop returns the pointwise list when every entry
construction succeeds. -/
theorem resultsLoop_ok (f : Nat → Except String BrowserTaskResult)
    (g : Nat → BrowserTaskResult) :
    ∀ l : List Nat, (∀ j ∈ l, f j = .ok (g j)) → resultsLoop f l = .ok (l.map g) := by
  intro l
  induction l with
  | nil => intro _; rfl
  | cons j rest ih =>
    intro h
    have hj := h j (List.mem_cons_self j rest)
    have hr := ih fun a ha => h a (List.mem_cons_of_mem j ha)
    simp only [resultsLoop, hj, hr, List.map_cons]

/-- getD over a mapped range evaluates pointwise below the bound. -/
theorem getD_map_range {β : Type} (g : Nat → β) (n i : Nat) (d : β) (h : i < n) :
    ((List.range n).map g).getD i d = g i := by
  rw [List.getD_eq_getElem _ _ (by simpa using h)]
  simp

/-- getD over a range is the index itself below the bound. -/
theorem getD_range (n i : Nat) (h : i < n) : (List.range n).getD i 0 = i := by
  rw [List.getD_eq_getElem _ _ (by simpa using h)]
  simp

/-- pyStr validation succeeds exactly on plain-string descriptors and
returns the description. -/
theorem pyStr_of_isStr (t : TaskSpec) (h : t.isStr = true) :
    pyStr t = .ok t.description := by
  cases t <;> simp_all [TaskSpec.isStr, pyStr, TaskSpec.description]

/-- A getD element below the length bound is a member of the list. -/
theorem getD_mem_of_lt {α : Type} (l : List α) (i : Nat) (d : α) (h : i < l.length) :
    l.getD i d ∈ l := by
  rw [List.getD_eq_getElem _ _ h]
  exact List.getElem_mem h

/-- The entry the result-processing loop produces at position j when
the task-field validation succeeds: the outcome of the agent at
position j of the agents list, labelled with the description of task j. -/
def expectedResultAt (ts : List TaskSpec) (run : Nat → RunOutcome)
    (agents : List Nat) (j : Nat) : BrowserTaskResult :=
  match run (agents.getD j 0) with
  | .raised msg =>
    ⟨"agent-" ++ toString (j + 1), (ts.getD j (.str "")).description, false, none, some msg⟩
  | .finished ok finalRes errsText hasErrs =>
    ⟨"agent-" ++ toString (j + 1), (ts.getD j (.str "")).description, ok, some finalRes,
      some (if hasErrs && !ok then errsText else "")⟩

/-- Entry construction succeeds on a plain-string task below the length
bound, producing the expected entry. -/
theorem mkParallelResult_ok (ts : List TaskSpec) (agents : List Nat)
    (run : Nat → RunOutcome) (j : Nat) (hj : j < ts.length)
    (hstr : ∀ t ∈ ts, t.isStr = true) :
    mkParallelResult ts agents run j = .ok (expectedResultAt ts run agents j) := by
  have hpy : pyStr (ts.getD j (.str "")) = .ok (ts.getD j (.str "")).description :=
    pyStr_of_isStr _ (hstr _ (getD_mem_of_lt ts j _ hj))
  unfold mkParallelResult expectedResultAt
  rw [hpy]
  cases run (agents.getD j 0) <;> rfl

/-- On plain-string tasks the result-processing loop never raises and
returns one entry per created agent, in position order. -/
theorem processParallelResults_ok (ts : List TaskSpec) (agents : List Nat)
    (run : Nat → RunOutcome) (hlen : agents.length ≤ ts.length)
    (hstr : ∀ t ∈ ts, t.isStr = true) :
    processParallelResults ts agents run =
      .ok ((List.range agents.length).map (expectedResultAt ts run agents)) := by
  unfold processParallelResults
  exact resultsLoop_ok _ _ _ fun j hj =>
    mkParallelResult_ok ts agents run j
      (lt_of_lt_of_le (List.mem_range.mp hj) hlen) hstr

/- ------------------------------------------------------------------
   Claim theorems.
   ------------------------------------------------------------------ -/

/-- C1: the status priority chain of get_status. The idle, stopped,
paused and running branches behave as claimed, but for a session whose
completion flag is set (and no stop/pause flag), get_status computes the
string "completed", which the Literal annotation of
VibeSurfStatus.overall_status (line 74) does not admit — pydantic
rejects the construction and the except branch turns the snapshot into
an "error" status carrying the validation failure text, so the claimed
"complete" status is never produced. -/
theorem C1_get_status_complete_branch_is_error :
    get_status none [] = ⟨"idle", [], none, none⟩ ∧
    (get_status (some stoppedStateEx) ["agent-1"]).overall_status = "stopped" ∧
    (get_status (some pausedStateEx) []).overall_status = "paused" ∧
    (get_status (some (mkFlagsState false false true false false)) []).overall_status = "paused" ∧
    (get_status (some runningStateEx) []).overall_status = "running" ∧
    (get_status (some completeStateEx) []).overall_status = "error" ∧
    (get_status (some completeStateEx) []).overall_status ≠ "complete" ∧
    (get_status (some completeStateEx) []).progressError =
      some "ValidationError: overall_status input should be one of the allowed literals, got completed" :=
  ⟨rfl, rfl, rfl, rfl, rfl, rfl, by decide, rfl⟩

/-- C7: pause_agent and resume_agent on an id absent from the
running-agents registry return a success ControlResult (a warning-only
no-op), and an exception raised by a present agent's pause or resume
hook is converted into a failure ControlResult instead of propagating. -/
theorem C7_targeted_control_absent_id_noop_errors_caught :
    (∀ (registry : List (String × AgentHandle)) (agent_id reason : String),
        registry.lookup agent_id = none →
        (pause_agent registry agent_id reason).success = true ∧
        (resume_agent registry agent_id reason).success = true) ∧
    (∀ (registry : List (String × AgentHandle)) (agent_id reason : String)
        (a : AgentHandle) (e : String),
        registry.lookup agent_id = some a → a.hasPause = true → a.pauseErr = some e →
        (pause_agent registry agent_id reason).success = false) ∧
    (∀ (registry : List (String × AgentHandle)) (agent_id reason : String)
        (a : AgentHandle) (e : String),
        registry.lookup agent_id = some a → a.hasResume = true → a.resumeErr = some e →
        (resume_agent registry agent_id reason).success = false) := by
  refine ⟨?_, ?_, ?_⟩
  · intro registry agent_id reason h
    constructor <;> simp [pause_agent, resume_agent, h]
  · intro registry agent_id reason a e h h1 h2
    simp [pause_agent, h, h1, h2]
  · intro registry agent_id reason a e h h1 h2
    simp [resume_agent, h, h1, h2]

/-- A registered agent handle whose pause and resume hooks both raise. -/
def faultyHandleEx : AgentHandle :=
  { hasPause := true, pauseErr := some "pause hook boom"
    hasResume := true, resumeErr := some "resume hook boom" }

/-- Witness for C7 at concrete inputs: an empty registry with an unknown
id, and a one-entry registry whose hooks raise. -/
theorem C7_witness :
    (([] : List (String × AgentHandle)).lookup "ghost" = none ∧
      faultyHandleEx.hasPause = true ∧ faultyHandleEx.pauseErr = some "pause hook boom" ∧
      [("agent-1-ab", faultyHandleEx)].lookup "agent-1-ab" = some faultyHandleEx) ∧
    (pause_agent [] "ghost" "r").success = true ∧
    (resume_agent [] "ghost" "r").success = true ∧
    (pause_agent [("agent-1-ab", faultyHandleEx)] "agent-1-ab" "r").success = false ∧
    (resume_agent [("agent-1-ab", faultyHandleEx)] "agent-1-ab" "r").success = false :=
  ⟨⟨rfl, rfl, rfl, rfl⟩,
    (C7_targeted_control_absent_id_noop_errors_caught.1 [] "ghost" "r" rfl).1,
    (C7_targeted_control_absent_id_noop_errors_caught.1 [] "ghost" "r" rfl).2,
    C7_targeted_control_absent_id_noop_errors_caught.2.1
      [("agent-1-ab", faultyHandleEx)] "agent-1-ab" "r" faultyHandleEx "pause hook boom" rfl rfl rfl,
    C7_targeted_control_absent_id_noop_errors_caught.2.2
      [("agent-1-ab", faultyHandleEx)] "agent-1-ab" "r" faultyHandleEx "resume hook boom" rfl rfl rfl⟩

/-- C3: while the gate's pause-wait loop is active (paused or
should_pause set, not stopped), a stop request made visible by the
controller mutation μ during the sleep is observed at the very next
check: the gate returns some state with stopped set and should_stop
cleared, with outcome stoppedWhilePaused (the wrapped node is not
executed), and the remainder of the polling schedule is irrelevant. -/
theorem C3_gate_stop_observed_while_paused (s : VibeSurfState)
    (μ : VibeSurfState → VibeSurfState) (rest : List (VibeSurfState → VibeSurfState))
    (hp : s.paused = true ∨ s.should_pause = true) (hns : s.stopped = false)
    (hstop : (μ (pauseMark s)).stopped = true ∨ (μ (pauseMark s)).should_stop = true) :
    gateRun (μ :: rest) s =
      some (stopMark (μ (pauseMark s)), GateOutcome.stoppedWhilePaused) ∧
    (stopMark (μ (pauseMark s))).stopped = true ∧
    (stopMark (μ (pauseMark s))).should_stop = false := by
  have hcond : (s.paused || s.should_pause) = true := by
    rcases hp with h | h <;> simp [h]
  have hstop' : ((μ (pauseMark s)).stopped || (μ (pauseMark s)).should_stop) = true := by
    rcases hstop with h | h <;> simp [h]
  refine ⟨?_, rfl, rfl⟩
  simp [gateRun, hns, pauseWait, hcond, hstop']

/-- Witness for C3 at a concrete input: a paused, unstopped session and
the controller's stop effect as the mutation applied during the sleep. -/
theorem C3_witness :
    (pausedStateEx.paused = true ∨ pausedStateEx.should_pause = true) ∧
    pausedStateEx.stopped = false ∧
    ((agentStop (pauseMark pausedStateEx)).stopped = true ∨
      (agentStop (pauseMark pausedStateEx)).should_stop = true) ∧
    (gateRun [agentStop] pausedStateEx =
        some (stopMark (agentStop (pauseMark pausedStateEx)), GateOutcome.stoppedWhilePaused) ∧
      (stopMark (agentStop (pauseMark pausedStateEx))).stopped = true ∧
      (stopMark (agentStop (pauseMark pausedStateEx))).should_stop = false) :=
  ⟨Or.inl rfl, rfl, Or.inl rfl,
    C3_gate_stop_observed_while_paused pausedStateEx agentStop []
      (Or.inl rfl) rfl (Or.inl rfl)⟩

/-- C9: the stopped flag is monotonic across every operation of the
system: the controller effects stop, pause and resume, the two
state-mutating workflow node implementations, the gate's internal
transitions, and a full gate pass never reset stopped to false. -/
theorem C9_stopped_monotone :
    (∀ s : VibeSurfState, s.stopped = true → (agentStop s).stopped = true) ∧
    (∀ s : VibeSurfState, s.stopped = true → (agentPause s).stopped = true) ∧
    (∀ s : VibeSurfState, s.stopped = true → (agentResume s).stopped = true) ∧
    (∀ (s : VibeSurfState) (step : PlannerStep),
        s.stopped = true → (vibesurf_agent_node_impl s step).stopped = true) ∧
    (∀ (suffix : String) (s : VibeSurfState) (senv : Nat → SingleEnv)
        (reg create : Nat → Option String) (run : Nat → RunOutcome),
        s.stopped = true →
        (browser_task_execution_node_impl suffix s senv reg create run).stopped = true) ∧
    (∀ s : VibeSurfState, s.stopped = true → (pauseMark s).stopped = true) ∧
    (∀ s : VibeSurfState, (stopMark s).stopped = true) ∧
    (∀ (env : List (VibeSurfState → VibeSurfState)) (s r : VibeSurfState)
        (o : GateOutcome),
        gateRun env s = some (r, o) → s.stopped = true → r.stopped = true) := by
  refine ⟨fun s _ => rfl, fun s h => h, fun s h => h, ?_, ?_, ?_, fun s => rfl, ?_⟩
  · intro s step h
    cases step with
    | raised msg => exact h
    | routeBrowserTasks tasks => exact h
    | routeReport => exact h
    | taskDone response followTasks => exact h
    | inlineAction extracted errText => cases extracted <;> cases errText <;> exact h
  · intro suffix s senv reg create run h
    unfold browser_task_execution_node_impl
    cases execute_tab_based_browser_tasks suffix s.browser_tasks senv reg create run <;>
      exact h
  · intro s h
    unfold pauseMark
    split <;> simp [h]
  · intro env s r o hg h
    rw [gateRun, if_pos h] at hg
    cases hg
    exact h

/-- Witness for C9 at a concrete input: a stopped session state. -/
theorem C9_witness :
    stoppedStateEx.stopped = true ∧
    (agentStop stoppedStateEx).stopped = true ∧
    (agentPause stoppedStateEx).stopped = true ∧
    (agentResume stoppedStateEx).stopped = true ∧
    (vibesurf_agent_node_impl stoppedStateEx (.raised "boom")).stopped = true ∧
    (browser_task_execution_node_impl "0001" stoppedStateEx
      (fun _ => ⟨none, .raised "boom"⟩) (fun _ => none) (fun _ => none)
      (fun _ => .raised "boom")).stopped = true ∧
    (pauseMark stoppedStateEx).stopped = true ∧
    (stopMark stoppedStateEx).stopped = true ∧
    gateRun [] stoppedStateEx = some (stoppedStateEx, GateOutcome.skippedAlreadyStopped) :=
  ⟨rfl,
    C9_stopped_monotone.1 stoppedStateEx rfl,
    C9_stopped_monotone.2.1 stoppedStateEx rfl,
    C9_stopped_monotone.2.2.1 stoppedStateEx rfl,
    C9_stopped_monotone.2.2.2.1 stoppedStateEx (.raised "boom") rfl,
    C9_stopped_monotone.2.2.2.2.1 "0001" stoppedStateEx
      (fun _ => ⟨none, .raised "boom"⟩) (fun _ => none) (fun _ => none)
      (fun _ => .raised "boom") rfl,
    C9_stopped_monotone.2.2.2.2.2.1 stoppedStateEx rfl,
    C9_stopped_monotone.2.2.2.2.2.2.1 stoppedStateEx,
    rfl⟩

/-- C8: when the try body of the planning node raises (planner
invocation or inline action execution), the except branch records an
error-carrying final response, sets the completion flag, and appends an
error activity entry — but the run loop does not end: the router
route_after_vibesurf_agent tests current_step == "vibesurf_agent"
before is_complete, so the post-exception state is routed straight back
into the planning node; the "END" branch (and the unwired
should_continue, which would return "END" here) is unreachable. -/
theorem C8_planner_exception_marks_complete_but_loops :
    (vibesurf_agent_node_impl runningStateEx (.raised "planner boom")).final_response =
      some "Task execution failed: planner boom" ∧
    (vibesurf_agent_node_impl runningStateEx (.raised "planner boom")).is_complete = true ∧
    (vibesurf_agent_node_impl runningStateEx (.raised "planner boom")).activity_logs =
      [⟨"vibesurf_agent", "error", "Agent failed: planner boom"⟩] ∧
    (vibesurf_agent_node_impl runningStateEx (.raised "planner boom")).current_step =
      "vibesurf_agent" ∧
    should_continue (vibesurf_agent_node_impl runningStateEx (.raised "planner boom")) =
      "END" ∧
    route_after_vibesurf_agent
      (vibesurf_agent_node_impl runningStateEx (.raised "planner boom")) =
      "vibesurf_agent" ∧
    route_after_vibesurf_agent
      (vibesurf_agent_node_impl runningStateEx (.raised "planner boom")) ≠ "END" :=
  ⟨rfl, rfl, rfl, rfl, rfl, rfl, by decide⟩

/-- C6: strategy selection of the dispatcher is a function of the task
list length alone: length 1 takes the sequential single path (whose
every created worker is bound to the shared main browser session), and
length at least 2 takes the parallel path (which registers one isolated
browser session per task). -/
theorem C6_dispatch_strategy_selection :
    (∀ ts : List TaskSpec, ts.length = 1 → dispatchPath ts = .single) ∧
    (∀ ts : List TaskSpec, 2 ≤ ts.length → dispatchPath ts = .parallel) ∧
    (∀ ts ts' : List TaskSpec, ts.length = ts'.length →
      dispatchPath ts = dispatchPath ts') ∧
    (∀ (suffix : String) (ts : List TaskSpec) (senv : Nat → SingleEnv)
        (reg create : Nat → Option String) (run : Nat → RunOutcome),
        ts.length = 1 →
        execute_tab_based_browser_tasks suffix ts senv reg create run =
          (execute_single_browser_tasks suffix ts senv).resultsE) ∧
    (∀ (suffix : String) (ts : List TaskSpec) (senv : Nat → SingleEnv)
        (b : SessionBinding),
        b ∈ (execute_single_browser_tasks suffix ts senv).sessionsUsed →
        b = SessionBinding.shared) ∧
    (∀ (suffix : String) (ts : List TaskSpec) (senv : Nat → SingleEnv)
        (reg create : Nat → Option String) (run : Nat → RunOutcome),
        2 ≤ ts.length →
        execute_tab_based_browser_tasks suffix ts senv reg create run =
          (execute_parallel_browser_tasks suffix ts reg create run).resultsE) ∧
    (∀ (suffix : String) (ts : List TaskSpec) (reg create : Nat → Option String)
        (run : Nat → RunOutcome),
        (∀ i, i < ts.length → reg i = none) →
        (execute_parallel_browser_tasks suffix ts reg create run).acquired =
          List.range ts.length) := by
  refine ⟨?_, ?_, ?_, ?_, ?_, ?_, ?_⟩
  · intro ts h
    simp [dispatchPath, h]
  · intro ts h
    unfold dispatchPath
    rw [if_neg (by omega)]
  · intro ts ts' h
    unfold dispatchPath
    rw [h]
  · intro suffix ts senv reg create run h
    unfold execute_tab_based_browser_tasks
    rw [if_pos (by omega)]
  · intro suffix ts senv b hb
    simp only [execute_single_browser_tasks, singleSessions, List.mem_filterMap] at hb
    obtain ⟨i, _, hif⟩ := hb
    split at hif
    · exact (Option.some.inj hif).symm
    · cases hif
  · intro suffix ts senv reg create run h
    unfold execute_tab_based_browser_tasks
    rw [if_neg (by omega)]
  · intro suffix ts reg create run hreg
    rw [parallel_reg_ok suffix ts reg create run hreg]

/-- Worker environment used by the concrete dispatch evaluations. -/
def happySingleEnv : Nat → SingleEnv :=
  fun _ => ⟨none, .finished true "done" "" false⟩

/-- Run outcomes used by the concrete dispatch evaluations. -/
def happyRun : Nat → RunOutcome := fun _ => .finished true "done" "" false

/-- Witness for C6 at concrete inputs: a one-element and a two-element
task list. -/
theorem C6_witness :
    ([TaskSpec.str "open example.com"].length = 1 ∧
      2 ≤ ([TaskSpec.str "task a", TaskSpec.str "task b"] : List TaskSpec).length) ∧
    dispatchPath [TaskSpec.str "open example.com"] = .single ∧
    dispatchPath [TaskSpec.str "task a", TaskSpec.str "task b"] = .parallel ∧
    execute_tab_based_browser_tasks "0001" [TaskSpec.str "open example.com"]
        happySingleEnv (fun _ => none) (fun _ => none) happyRun =
      (execute_single_browser_tasks "0001" [TaskSpec.str "open example.com"]
        happySingleEnv).resultsE ∧
    (execute_single_browser_tasks "0001" [TaskSpec.str "open example.com"]
        happySingleEnv).sessionsUsed.headD SessionBinding.shared =
      SessionBinding.shared ∧
    execute_tab_based_browser_tasks "0001" [TaskSpec.str "task a", TaskSpec.str "task b"]
        happySingleEnv (fun _ => none) (fun _ => none) happyRun =
      (execute_parallel_browser_tasks "0001"
        [TaskSpec.str "task a", TaskSpec.str "task b"]
        (fun _ => none) (fun _ => none) happyRun).resultsE ∧
    (execute_parallel_browser_tasks "0001" [TaskSpec.str "task a", TaskSpec.str "task b"]
        (fun _ => none) (fun _ => none) happyRun).acquired = List.range 2 :=
  ⟨⟨rfl, by decide⟩,
    C6_dispatch_strategy_selection.1 [TaskSpec.str "open example.com"] rfl,
    C6_dispatch_strategy_selection.2.1 [TaskSpec.str "task a", TaskSpec.str "task b"]
      (by decide),
    C6_dispatch_strategy_selection.2.2.2.1 "0001" [TaskSpec.str "open example.com"]
      happySingleEnv (fun _ => none) (fun _ => none) happyRun rfl,
    C6_dispatch_strategy_selection.2.2.2.2.1 "0001" [TaskSpec.str "open example.com"]
      happySingleEnv (SessionBinding.shared) (by decide),
    C6_dispatch_strategy_selection.2.2.2.2.2.1 "0001"
      [TaskSpec.str "task a", TaskSpec.str "task b"] happySingleEnv
      (fun _ => none) (fun _ => none) happyRun (by decide),
    C6_dispatch_strategy_selection.2.2.2.2.2.2 "0001"
      [TaskSpec.str "task a", TaskSpec.str "task b"] (fun _ => none) (fun _ => none)
      happyRun (fun i _ => rfl)⟩

/-- C10: an empty task-descriptor list takes the sequential path,
returns an empty result list without raising, appends no task results
to session state, and sets the current step back to the planning node. -/
theorem C10_empty_task_list (suffix : String) (s : VibeSurfState)
    (senv : Nat → SingleEnv) (reg create : Nat → Option String) (run : Nat → RunOutcome)
    (h : s.browser_tasks = []) :
    dispatchPath s.browser_tasks = .single ∧
    execute_tab_based_browser_tasks suffix s.browser_tasks senv reg create run =
      .ok [] ∧
    (browser_task_execution_node_impl suffix s senv reg create run).browser_results =
      s.browser_results ∧
    (browser_task_execution_node_impl suffix s senv reg create run).current_step =
      "vibesurf_agent" := by
  have htab : execute_tab_based_browser_tasks suffix s.browser_tasks senv reg create run =
      .ok [] := by rw [h]; rfl
  refine ⟨by rw [h]; rfl, htab, ?_, ?_⟩
  · unfold browser_task_execution_node_impl
    rw [htab]
    simp [afterDispatch, log_agent_activity]
  · unfold browser_task_execution_node_impl
    rw [htab]
    rfl

/-- A session state with no pending browser tasks but an earlier
result, to observe that the empty dispatch appends nothing. -/
def emptyTasksStateEx : VibeSurfState :=
  { runningStateEx with
      browser_results := [⟨"agent-1", "earlier task", true, some "ok", some ""⟩] }

/-- Witness for C10 at a concrete input. -/
theorem C10_witness :
    emptyTasksStateEx.browser_tasks = [] ∧
    (dispatchPath emptyTasksStateEx.browser_tasks = .single ∧
      execute_tab_based_browser_tasks "0001" emptyTasksStateEx.browser_tasks
        happySingleEnv (fun _ => none) (fun _ => none) happyRun = .ok [] ∧
      (browser_task_execution_node_impl "0001" emptyTasksStateEx happySingleEnv
        (fun _ => none) (fun _ => none) happyRun).browser_results =
        emptyTasksStateEx.browser_results ∧
      (browser_task_execution_node_impl "0001" emptyTasksStateEx happySingleEnv
        (fun _ => none) (fun _ => none) happyRun).current_step = "vibesurf_agent") :=
  ⟨rfl, C10_empty_task_list "0001" emptyTasksStateEx happySingleEnv
    (fun _ => none) (fun _ => none) happyRun rfl⟩

/-- Two plain-string tasks of which the first worker's creation fails. -/
def c2tasks : List TaskSpec := [.str "task zero", .str "task one"]

/-- Creation outcomes: the agent of task 0 cannot be constructed. -/
def c2create : Nat → Option String :=
  fun i => if i = 0 then some "agent creation boom" else none

/-- C2 counterexample: with two dispatched tasks of which worker 0's
creation fails, the result list has length 1, not 2, and its single
entry pairs task zero's description with worker 1's (successful)
outcome — the i-th result does not correspond to the i-th descriptor. -/
theorem C2_counterexample :
    c2tasks.length = 2 ∧
    (execute_parallel_browser_tasks "0001" c2tasks (fun _ => none) c2create
        happyRun).resultsE =
      .ok [⟨"agent-1", "task zero", true, some "done", some ""⟩] ∧
    ([(⟨"agent-1", "task zero", true, some "done", some ""⟩ : BrowserTaskResult)]).length
      = 1 :=
  ⟨rfl, rfl, rfl⟩

/-- C2 (amended): when no worker creation fails and the descriptors are
plain strings, the parallel dispatcher returns — for any run outcomes,
hence any completion order — one result per input descriptor, in input
order: the i-th entry carries the i-th task's description, the i-th
agent id, and the i-th worker's outcome. -/
theorem C2_order_preserved_without_creation_failures (suffix : String)
    (ts : List TaskSpec) (reg create : Nat → Option String) (run : Nat → RunOutcome)
    (hreg : ∀ i, i < ts.length → reg i = none)
    (hcreate : ∀ i, i < ts.length → create i = none)
    (hstr : ∀ t ∈ ts, t.isStr = true) :
    ∃ rs, (execute_parallel_browser_tasks suffix ts reg create run).resultsE = .ok rs ∧
      rs.length = ts.length ∧
      ∀ i, i < ts.length →
        (rs.getD i ⟨"", "", false, none, none⟩).task =
          (ts.getD i (.str "")).description ∧
        (rs.getD i ⟨"", "", false, none, none⟩).agent_id =
          "agent-" ++ toString (i + 1) ∧
        (rs.getD i ⟨"", "", false, none, none⟩).success =
          (match run i with | .raised _ => false | .finished ok _ _ _ => ok) := by
  have hCA := createdAgents_all_ok ts.length create hcreate
  refine ⟨(List.range ts.length).map (expectedResultAt ts run (List.range ts.length)),
    ?_, ?_, ?_⟩
  · rw [parallel_reg_ok suffix ts reg create run hreg]
    show processParallelResults ts (createdAgents ts.length create) run = _
    rw [hCA]
    have hpr := processParallelResults_ok ts (List.range ts.length) run
      (by rw [List.length_range]) hstr
    rwa [List.length_range] at hpr
  · rw [List.length_map, List.length_range]
  · intro i hi
    rw [getD_map_range _ _ _ _ hi]
    unfold expectedResultAt
    rw [getD_range _ _ hi]
    cases run i <;> exact ⟨rfl, rfl, rfl⟩

/-- Plain-string tasks used in the C2 witness. -/
def c2wtasks : List TaskSpec := [.str "witness zero", .str "witness one"]

/-- Witness for the amended C2 at a concrete input: two string tasks,
all registrations and creations succeed, both workers finish. -/
theorem C2_witness :
    ((∀ i, i < c2wtasks.length → (fun _ => (none : Option String)) i = none) ∧
      (∀ t ∈ c2wtasks, t.isStr = true)) ∧
    (∃ rs, (execute_parallel_browser_tasks "0001" c2wtasks (fun _ => none)
        (fun _ => none) happyRun).resultsE = .ok rs ∧
      rs.length = c2wtasks.length ∧
      ∀ i, i < c2wtasks.length →
        (rs.getD i ⟨"", "", false, none, none⟩).task =
          (c2wtasks.getD i (.str "")).description ∧
        (rs.getD i ⟨"", "", false, none, none⟩).agent_id =
          "agent-" ++ toString (i + 1) ∧
        (rs.getD i ⟨"", "", false, none, none⟩).success =
          (match happyRun i with | .raised _ => false | .finished ok _ _ _ => ok)) :=
  ⟨⟨fun i _ => rfl, by decide⟩,
    C2_order_preserved_without_creation_failures "0001" c2wtasks (fun _ => none)
      (fun _ => none) happyRun (fun i _ => rfl) (fun i _ => rfl) (by decide)⟩

/-- Two tasks of which the second's browser-session registration fails. -/
def c4tasks : List TaskSpec := [.str "task zero", .str "task one"]

/-- Registration outcomes: task 1's register_agent raises. -/
def c4reg : Nat → Option String :=
  fun i => if i = 1 then some "register boom" else none

/-- C4 counterexample: when one registration raises, the registration
gather — which sits outside the try/finally — propagates the exception:
task 0's isolated session was acquired (it has no explicit target) yet
nothing is released and no per-task cleanup runs at all. -/
theorem C4_counterexample :
    (c4tasks.getD 0 (.str "")).isPair = false ∧
    execute_parallel_browser_tasks "0001" c4tasks c4reg (fun _ => none) happyRun =
      { resultsE := .error "register boom", acquired := [0], released := [],
        registryAdds := [], registryRemoved := [] } :=
  ⟨rfl, rfl⟩

/-- C4 (amended): once the registration phase succeeds, the finally
block runs unconditionally — whatever the creation, run and
result-processing outcomes: the session of every task without an
explicit target is released exactly once (the released list is the
duplicate-free filter of all task indices), every task's agent id is
popped from the running-agents registry exactly once (one pop per task,
in order), and every id that was registered is popped. -/
theorem C4_cleanup_when_registration_succeeds (suffix : String) (ts : List TaskSpec)
    (reg create : Nat → Option String) (run : Nat → RunOutcome)
    (hreg : ∀ i, i < ts.length → reg i = none) :
    (execute_parallel_browser_tasks suffix ts reg create run).released =
      (List.range ts.length).filter (fun i => !(ts.getD i (.str "")).isPair) ∧
    (execute_parallel_browser_tasks suffix ts reg create run).released.Nodup ∧
    (∀ i, i < ts.length → (ts.getD i (.str "")).isPair = false →
      i ∈ (execute_parallel_browser_tasks suffix ts reg create run).released) ∧
    (execute_parallel_browser_tasks suffix ts reg create run).registryRemoved =
      (List.range ts.length).map (parallelAgentId suffix) ∧
    (∀ i, i < ts.length →
      parallelAgentId suffix i ∈
        (execute_parallel_browser_tasks suffix ts reg create run).registryRemoved) ∧
    (∀ a ∈ (execute_parallel_browser_tasks suffix ts reg create run).registryAdds,
      a ∈ (execute_parallel_browser_tasks suffix ts reg create run).registryRemoved) := by
  rw [parallel_reg_ok suffix ts reg create run hreg]
  refine ⟨rfl, (List.nodup_range ts.length).filter _, ?_, rfl, ?_, ?_⟩
  · intro i hi hp
    rw [List.getD_eq_getElem _ _ hi] at hp
    simp [List.mem_filter, List.mem_range, hi, hp]
  · intro i hi
    exact List.mem_map_of_mem _ (List.mem_range.mpr hi)
  · intro a ha
    simp only [createdAgents, List.mem_map, List.mem_filter] at ha ⊢
    obtain ⟨i, ⟨hmem, _⟩, rfl⟩ := ha
    exact ⟨i, hmem, rfl⟩

/-- Tasks used in the C4 witness: one isolated task and one task with an
explicit target tab. -/
def c4wtasks : List TaskSpec := [.str "isolated task", .pair "tab-9" "targeted task"]

/-- Witness for the amended C4 at a concrete input: registrations all
succeed, the second worker's run raises; the isolated session (task 0)
is released and both agent ids are popped. -/
theorem C4_witness :
    (∀ i, i < c4wtasks.length → (fun _ => (none : Option String)) i = none) ∧
    ((execute_parallel_browser_tasks "0001" c4wtasks (fun _ => none) (fun _ => none)
        (fun i => if i = 1 then .raised "late boom" else .finished true "done" "" false)).released =
      (List.range c4wtasks.length).filter
        (fun i => !(c4wtasks.getD i (.str "")).isPair) ∧
      (execute_parallel_browser_tasks "0001" c4wtasks (fun _ => none) (fun _ => none)
        (fun i => if i = 1 then .raised "late boom" else .finished true "done" "" false)).released.Nodup ∧
      (∀ i, i < c4wtasks.length → (c4wtasks.getD i (.str "")).isPair = false →
        i ∈ (execute_parallel_browser_tasks "0001" c4wtasks (fun _ => none) (fun _ => none)
          (fun i => if i = 1 then .raised "late boom" else .finished true "done" "" false)).released) ∧
      (execute_parallel_browser_tasks "0001" c4wtasks (fun _ => none) (fun _ => none)
        (fun i => if i = 1 then .raised "late boom" else .finished true "done" "" false)).registryRemoved =
        (List.range c4wtasks.length).map (parallelAgentId "0001") ∧
      (∀ i, i < c4wtasks.length →
        parallelAgentId "0001" i ∈
          (execute_parallel_browser_tasks "0001" c4wtasks (fun _ => none) (fun _ => none)
            (fun i => if i = 1 then .raised "late boom" else .finished true "done" "" false)).registryRemoved) ∧
      (∀ a ∈ (execute_parallel_browser_tasks "0001" c4wtasks (fun _ => none) (fun _ => none)
          (fun i => if i = 1 then .raised "late boom" else .finished true "done" "" false)).registryAdds,
        a ∈ (execute_parallel_browser_tasks "0001" c4wtasks (fun _ => none) (fun _ => none)
          (fun i => if i = 1 then .raised "late boom" else .finished true "done" "" false)).registryRemoved)) :=
  ⟨fun _ _ => rfl,
    C4_cleanup_when_registration_succeeds "0001" c4wtasks (fun _ => none) (fun _ => none)
      (fun i => if i = 1 then .raised "late boom" else .finished true "done" "" false)
      (fun _ _ => rfl)⟩

/-- Two dict-shaped task descriptors (the form the dispatch code
explicitly anticipates) of which worker 0's run raises. -/
def c5tasks : List TaskSpec :=
  [.dict (some "dict task zero") none, .dict (some "dict task one") none]

/-- Run outcomes for the C5 counterexample: worker 0 raises, worker 1
finishes. -/
def c5run : Nat → RunOutcome :=
  fun i => if i = 0 then .raised "worker boom" else .finished true "done" "" false

/-- C5 counterexample: with dict-shaped descriptors, building the
raising worker's result entry passes the raw dict into the str-typed
task field of BrowserTaskResult; the pydantic ValidationError propagates
out of the dispatcher instead of a failed entry with the worker's
exception text being recorded, and no result list is produced at all. -/
theorem C5_counterexample :
    (execute_parallel_browser_tasks "0001" c5tasks (fun _ => none) (fun _ => none)
        c5run).resultsE =
      .error "ValidationError: 1 validation error for BrowserTaskResult - task: Input should be a valid string" :=
  rfl

/-- C5 (amended): for dispatches whose registration phase succeeds and
whose descriptors are plain strings, a worker whose run raises is
recorded at its position with success false and the exception text as
the error, nothing is re-raised out of the dispatcher, and every other
dispatched worker contributes its own entry (one entry per created
agent, each reflecting that agent's outcome). -/
theorem C5_worker_exception_recorded_siblings_complete (suffix : String)
    (ts : List TaskSpec) (reg create : Nat → Option String) (run : Nat → RunOutcome)
    (hreg : ∀ i, i < ts.length → reg i = none)
    (hstr : ∀ t ∈ ts, t.isStr = true) :
    ∃ rs, (execute_parallel_browser_tasks suffix ts reg create run).resultsE = .ok rs ∧
      rs.length = (createdAgents ts.length create).length ∧
      ∀ j, j < (createdAgents ts.length create).length →
        (∀ msg, run ((createdAgents ts.length create).getD j 0) = .raised msg →
          (rs.getD j ⟨"", "", false, none, none⟩).success = false ∧
          (rs.getD j ⟨"", "", false, none, none⟩).error = some msg) ∧
        (∀ ok finalRes errsText hasErrs,
          run ((createdAgents ts.length create).getD j 0) =
            .finished ok finalRes errsText hasErrs →
          (rs.getD j ⟨"", "", false, none, none⟩).success = ok ∧
          (rs.getD j ⟨"", "", false, none, none⟩).result = some finalRes) := by
  have hlen : (createdAgents ts.length create).length ≤ ts.length := by
    unfold createdAgents
    simpa using List.length_filter_le _ (List.range ts.length)
  refine ⟨(List.range (createdAgents ts.length create).length).map
      (expectedResultAt ts run (createdAgents ts.length create)), ?_, ?_, ?_⟩
  · rw [parallel_reg_ok suffix ts reg create run hreg]
    exact processParallelResults_ok ts _ run hlen hstr
  · rw [List.length_map, List.length_range]
  · intro j hj
    rw [getD_map_range _ _ _ _ hj]
    constructor
    · intro msg hmsg
      unfold expectedResultAt
      rw [hmsg]
      exact ⟨rfl, rfl⟩
    · intro ok finalRes errsText hasErrs hfin
      unfold expectedResultAt
      rw [hfin]
      exact ⟨rfl, rfl⟩

/-- Plain-string tasks used in the C5 witness. -/
def c5wtasks : List TaskSpec := [.str "sibling zero", .str "sibling one"]

/-- Run outcomes for the C5 witness: worker 0 raises, worker 1
finishes. -/
def c5wrun : Nat → RunOutcome :=
  fun i => if i = 0 then .raised "worker boom" else .finished true "all good" "" false

/-- Witness for the amended C5 at a concrete input: two string tasks,
worker 0 raises, worker 1 completes. -/
theorem C5_witness :
    ((∀ i, i < c5wtasks.length → (fun _ => (none : Option String)) i = none) ∧
      (∀ t ∈ c5wtasks, t.isStr = true)) ∧
    (∃ rs, (execute_parallel_browser_tasks "0001" c5wtasks (fun _ => none)
        (fun _ => none) c5wrun).resultsE = .ok rs ∧
      rs.length = (createdAgents c5wtasks.length (fun _ => none)).length ∧
      ∀ j, j < (createdAgents c5wtasks.length (fun _ => none)).length →
        (∀ msg, c5wrun ((createdAgents c5wtasks.length (fun _ => none)).getD j 0) =
            .raised msg →
          (rs.getD j ⟨"", "", false, none, none⟩).success = false ∧
          (rs.getD j ⟨"", "", false, none, none⟩).error = some msg) ∧
        (∀ ok finalRes errsText hasErrs,
          c5wrun ((createdAgents c5wtasks.length (fun _ => none)).getD j 0) =
            .finished ok finalRes errsText hasErrs →
          (rs.getD j ⟨"", "", false, none, none⟩).success = ok ∧
          (rs.getD j ⟨"", "", false, none, none⟩).result = some finalRes)) :=
  ⟨⟨fun i _ => rfl, by decide⟩,
    C5_worker_exception_recorded_siblings_complete "0001" c5wtasks (fun _ => none)
      (fun _ => none) c5wrun (fun i _ => rfl) (by decide)⟩

end VibeSurf
